import Mathlib

/-!
Verification of the rickandmorty data-fetching pipeline.

Shallow embedding of the Python sources:
  src/src/shared/utils.py          (retry_with_backoff, extract_id_from_url,
                                    handle_api_error, APIError)
  src/src/shared/models.py         (Origin, Location, Character, from_dict,
                                    get_location_id, PaginationInfo)
  src/src/shared/base_client.py    (BaseAPIClient._paginate_with_progress)
  src/src/shared/config.py         (Config constants)
  src/src/shared/data_processor.py (DataProcessor.get_statistics and helpers)
  src/src/rest/rest_client.py      (legacy RESTClient)
  src/src/rest/rest_client_v2.py   (facade RESTClient)
  src/src/graphql/graphql_client.py, graphql_client_v2.py
  src/main.py                      (standalone RickAndMortyClient._get)

Machine behaviour is made explicit: Python exceptions become Except values,
time.sleep calls become a recorded list of sleep durations, and the network
is an oracle function from attempt / page number to an outcome.
-/

/-- Python whitespace test for the ASCII characters `int()` strips
(space, tab, newline, carriage return, vertical tab, form feed).
Unicode spaces are not modelled; no input in this development contains them. -/
def isPySpace (c : Char) : Bool :=
  c.toNat = 32 || c.toNat = 9 || c.toNat = 10 || c.toNat = 13 ||
  c.toNat = 11 || c.toNat = 12

/-- ASCII decimal digit test, by code point (48..57). -/
def isAsciiDigit (c : Char) : Bool :=
  48 ≤ c.toNat && c.toNat ≤ 57

/-- Continuation of CPython's digit-part grammar `digit (["_"] digit)*`:
underscores are permitted only between digits. `acc` is the value of the
digits consumed so far. -/
def pyDigitsAux (acc : Nat) : List Char → Option Nat
  | [] => some acc
  | c :: cs =>
    if c = '_' then
      match cs with
      | [] => none
      | c2 :: cs2 =>
        if isAsciiDigit c2 then pyDigitsAux (acc * 10 + (c2.toNat - 48)) cs2
        else none
    else if isAsciiDigit c then pyDigitsAux (acc * 10 + (c.toNat - 48)) cs
    else none

/-- CPython digit-part parser: at least one digit, underscores only between
digits (so `int("1_0") = 10` but `int("_1")` and `int("1_")` fail). -/
def pyDigits? : List Char → Option Nat
  | [] => none
  | c :: cs =>
    if isAsciiDigit c then pyDigitsAux (c.toNat - 48) cs else none

/-- Strip leading and trailing Python whitespace, as `int()` does. -/
def pyStrip (l : List Char) : List Char :=
  ((l.dropWhile isPySpace).reverse.dropWhile isPySpace).reverse

/-- Model of Python `int(s)` on a character list: optional surrounding
whitespace, optional sign, CPython digit part. `none` models the raised
`ValueError`. -/
def pyInt? (l : List Char) : Option Int :=
  match pyStrip l with
  | [] => none
  | c :: rest =>
    if c = '+' then (pyDigits? rest).map Int.ofNat
    else if c = '-' then (pyDigits? rest).map (fun n => -(n : Int))
    else (pyDigits? (c :: rest)).map Int.ofNat

/-- The integer encoded by a list of decimal digits (radix-10 value),
the specification-side meaning of "the integer encoded as the trailing
path segment". -/
def digitsVal (ds : List Char) : Nat :=
  ds.foldl (fun a c => a * 10 + (c.toNat - 48)) 0

/-- The remainder of `l` after the first occurrence of `sep`, scanning left
to right; `none` when `sep` does not occur.  This is the primitive behind
Python's substring test and `str.split`. -/
def dropThroughFirst? (sep : List Char) : List Char → Option (List Char)
  | [] => none
  | c :: cs =>
    if sep.isPrefixOf (c :: cs) then some ((c :: cs).drop sep.length)
    else dropThroughFirst? sep cs

/-- An occurrence consumes at least `sep.length ≥ 1` characters, so the
remainder is strictly shorter. -/
theorem dropThroughFirst?_length {sep : List Char} (hsep : sep ≠ [])
    : ∀ {l rest : List Char}, dropThroughFirst? sep l = some rest →
      rest.length < l.length := by
  intro l
  induction l with
  | nil => intro rest h; simp [dropThroughFirst?] at h
  | cons c cs ih =>
    intro rest h
    by_cases hp : sep.isPrefixOf (c :: cs)
    · simp [dropThroughFirst?, hp] at h
      subst h
      have hlen : 0 < sep.length := List.length_pos.mpr hsep
      simp [List.length_drop]
      omega
    · simp [dropThroughFirst?, hp] at h
      exact Nat.lt_trans (ih h) (by simp)

/-- Python `sep in s` (substring containment). -/
def pyContains (sep l : List Char) : Bool :=
  (dropThroughFirst? sep l).isSome

/-- Fuelled iteration of `dropThroughFirst?`: jump past occurrences of
`sep` until none remains.  Structural recursion on the fuel keeps the
function kernel-reducible; by `dropThroughFirst?_length` each step strictly
shortens the list, so fuel `l.length` never runs out. -/
def afterLastF (sep : List Char) : Nat → List Char → List Char
  | 0, l => l
  | fuel + 1, l =>
    match dropThroughFirst? sep l with
    | none => l
    | some rest => afterLastF sep fuel rest

/-- The suffix of `l` after the LAST left-to-right non-overlapping
occurrence of `sep`, i.e. Python's `l.split(sep)[-1]`.  When `sep` does not
occur, `split` returns `[l]` and the last element is `l` itself. -/
def afterLast (sep l : List Char) : List Char :=
  if sep = [] then l else afterLastF sep l.length l

/-- Python `str.lower()` on a character list (ASCII case only; sufficient
for every string this client compares). -/
def pyLower (l : List Char) : List Char :=
  l.map Char.toLower

/- ### src/src/shared/config.py -/

/-- Config.REST_BASE_URL. -/
def restBaseUrl : String := "https://rickandmortyapi.com/api"

/-- Config.MAX_RETRIES. -/
def maxRetriesDefault : Nat := 3

/-- Config.RETRY_DELAY (seconds). -/
def retryDelayDefault : Rat := 1

/-- Config.RETRY_BACKOFF (exponential backoff multiplier). -/
def retryBackoffDefault : Rat := 2

/- ### src/src/shared/utils.py : extract_id_from_url -/

/-- utils.extract_id_from_url: `None` for a falsy url; when
`"/{resource_type}/"` occurs in the url, `int(url.split(f"/{rt}/")[-1])`
with `ValueError`/`IndexError` mapped to `None`; otherwise `None`. -/
def extract_id_from_url (url : String) (resource_type : String) : Option Int :=
  if url.toList = [] then none
  else if pyContains ("/" ++ resource_type ++ "/").toList url.toList then
    pyInt? (afterLast ("/" ++ resource_type ++ "/").toList url.toList)
  else none

/- ### src/src/shared/models.py -/

/-- The character's embedded origin after Character.from_dict
(`origin_data.get('name', '')`, `origin_data.get('url', '')`). -/
structure Origin where
  name : String
  url : String
deriving Repr, DecidableEq

/-- The raw `location` sub-dictionary a Character stores (models.py keeps it
as an untyped dict).  `name?`/`url?` are `none` when the key is absent;
these are the only keys any code of this repository reads. -/
structure RawLocRef where
  name? : Option String := none
  url? : Option String := none
deriving Repr, DecidableEq

/-- Python truthiness of the location dict: a dict is truthy iff non-empty
(with the two keys the pipeline ever stores). -/
def RawLocRef.truthy (r : RawLocRef) : Bool :=
  r.name?.isSome || r.url?.isSome

/-- models.Location after Location.from_dict. -/
structure Location where
  id : Int
  name : String
  type : String
  dimension : String
  url : String
  residents : List String
  created : String
deriving Repr, DecidableEq

/-- models.Character after Character.from_dict. -/
structure Character where
  id : Int
  name : String
  status : String
  species : String
  type : String
  gender : String
  origin : Origin
  location : RawLocRef
  image : String
  episode : List String
  url : String
  created : String
deriving Repr, DecidableEq

/-- A raw character record as a dictionary: `none` models an absent key.
Values, when present, have the shapes the upstream API serves. -/
structure RawCharacter where
  id? : Option Int := none
  name? : Option String := none
  status? : Option String := none
  species? : Option String := none
  type? : Option String := none
  gender? : Option String := none
  origin? : Option RawLocRef := none
  location? : Option RawLocRef := none
  image? : Option String := none
  episode? : Option (List String) := none
  url? : Option String := none
  created? : Option String := none
deriving Repr, DecidableEq

/-- A raw location record as a dictionary. -/
structure RawLocation where
  id? : Option Int := none
  name? : Option String := none
  type? : Option String := none
  dimension? : Option String := none
  url? : Option String := none
  residents? : Option (List String) := none
  created? : Option String := none
deriving Repr, DecidableEq

/-- models.Character.from_dict: every field read with `.get` and a default
(empty string / empty list / empty dict), so the function is total. -/
def Character.from_dict (d : RawCharacter) : Character :=
  let origin_data := d.origin?.getD {}
  { id := d.id?.getD 0
    name := d.name?.getD ""
    status := d.status?.getD ""
    species := d.species?.getD ""
    type := d.type?.getD ""
    gender := d.gender?.getD ""
    origin := ⟨origin_data.name?.getD "", origin_data.url?.getD ""⟩
    location := d.location?.getD {}
    image := d.image?.getD ""
    episode := d.episode?.getD []
    url := d.url?.getD ""
    created := d.created?.getD "" }

/-- models.Location.from_dict: every field read with `.get` and a default. -/
def Location.from_dict (d : RawLocation) : Location :=
  { id := d.id?.getD 0
    name := d.name?.getD ""
    type := d.type?.getD ""
    dimension := d.dimension?.getD ""
    url := d.url?.getD ""
    residents := d.residents?.getD []
    created := d.created?.getD "" }

/-- models.Character.get_location_id: requires the location dict truthy and
holding a `url` key, the url truthy and containing `/location/`; then
`int(url.split('/location/')[-1])` with parse failures mapped to `None`. -/
def Character.get_location_id (ch : Character) : Option Int :=
  if ch.location.truthy && ch.location.url?.isSome then
    if (ch.location.url?.getD "").toList ≠ [] &&
        pyContains "/location/".toList (ch.location.url?.getD "").toList then
      pyInt? (afterLast "/location/".toList (ch.location.url?.getD "").toList)
    else none
  else none

/-- models.PaginationInfo, as parsed by RESTClient._parse_pagination_info
(`info.get('pages', 0)` etc.; cursors omitted — no modelled code reads
them). -/
structure PaginationInfo where
  count : Nat
  pages : Nat
deriving Repr, DecidableEq

/- ### Lemmas about the Python string primitives -/

/-- An ASCII digit is not Python whitespace. -/
theorem isPySpace_eq_false_of_digit {c : Char} (h : isAsciiDigit c = true)
    : isPySpace c = false := by
  simp [isAsciiDigit] at h
  simp [isPySpace]
  omega

/-- `dropWhile` is the identity when the head (if any) fails the predicate. -/
theorem dropWhile_eq_self_of_head (p : Char → Bool) (l : List Char)
    (h : ∀ c, l.head? = some c → p c = false) : l.dropWhile p = l := by
  cases l with
  | nil => rfl
  | cons c cs => simp [List.dropWhile, h c rfl]

/-- Stripping whitespace does not change an all-digit list. -/
theorem pyStrip_of_digits {ds : List Char} (h : ds.all isAsciiDigit = true)
    : pyStrip ds = ds := by
  have hmem : ∀ c ∈ ds, isAsciiDigit c = true := by
    intro c hc; exact List.all_eq_true.mp h c hc
  have h1 : ds.dropWhile isPySpace = ds := by
    apply dropWhile_eq_self_of_head
    intro c hc
    exact isPySpace_eq_false_of_digit (hmem c (List.mem_of_mem_head? hc))
  have h2 : ds.reverse.dropWhile isPySpace = ds.reverse := by
    apply dropWhile_eq_self_of_head
    intro c hc
    have : c ∈ ds := List.mem_reverse.mp (List.mem_of_mem_head? hc)
    exact isPySpace_eq_false_of_digit (hmem c this)
  simp [pyStrip, h1, h2]

/-- The digit-part continuation evaluates an all-digit tail to the radix-10
fold. -/
theorem pyDigitsAux_of_digits : ∀ (ds : List Char) (acc : Nat),
    ds.all isAsciiDigit = true →
    pyDigitsAux acc ds = some (ds.foldl (fun a c => a * 10 + (c.toNat - 48)) acc) := by
  intro ds
  induction ds with
  | nil => intro acc _; rfl
  | cons c cs ih =>
    intro acc h
    simp [List.all_cons] at h
    obtain ⟨hc, hcs⟩ := h
    have hne : c ≠ '_' := by
      intro he; subst he
      simp [isAsciiDigit] at hc
    rw [pyDigitsAux.eq_def]
    simp [hne, hc, ih _ (List.all_eq_true.mpr hcs)]

/-- `pyDigits?` evaluates a non-empty all-digit list to its radix-10
value. -/
theorem pyDigits?_of_digits {ds : List Char} (hne : ds ≠ [])
    (h : ds.all isAsciiDigit = true) : pyDigits? ds = some (digitsVal ds) := by
  cases ds with
  | nil => exact absurd rfl hne
  | cons c cs =>
    simp [List.all_cons] at h
    obtain ⟨hc, hcs⟩ := h
    simp [pyDigits?, hc, digitsVal,
      pyDigitsAux_of_digits cs (c.toNat - 48) (List.all_eq_true.mpr hcs)]

/-- Python `int()` succeeds on a non-empty all-digit string and returns the
encoded integer. -/
theorem pyInt?_of_digits {ds : List Char} (hne : ds ≠ [])
    (h : ds.all isAsciiDigit = true) : pyInt? ds = some (digitsVal ds) := by
  cases ds with
  | nil => exact absurd rfl hne
  | cons c cs =>
    have hall := h
    simp [List.all_cons] at h
    obtain ⟨hc, hcs⟩ := h
    have hplus : c ≠ '+' := by
      intro he; subst he; simp [isAsciiDigit] at hc
    have hminus : c ≠ '-' := by
      intro he; subst he; simp [isAsciiDigit] at hc
    simp [pyInt?, pyStrip_of_digits hall, hplus, hminus,
      pyDigits?_of_digits (List.cons_ne_nil c cs) hall]

/-- `"/location/"` does not occur in an all-digit list (its first character
`'/'` is not a digit). -/
theorem dropThroughFirst?_loc_of_digits : ∀ {ds : List Char},
    ds.all isAsciiDigit = true →
    dropThroughFirst? "/location/".toList ds = none := by
  intro ds
  induction ds with
  | nil => intro _; rfl
  | cons c cs ih =>
    intro h
    simp [List.all_cons] at h
    obtain ⟨hc, hcs⟩ := h
    have hcne : ('/' : Char) ≠ c := by
      intro he
      rw [← he] at hc
      exact absurd hc (by decide)
    rw [dropThroughFirst?.eq_def]
    simp [List.isPrefixOf, hcne]
    exact ih (List.all_eq_true.mpr hcs)

/-- `afterLastF` is the identity when the separator does not occur,
whatever the fuel. -/
theorem afterLastF_of_none {sep l : List Char}
    (h : dropThroughFirst? sep l = none)
    : ∀ fuel, afterLastF sep fuel l = l
  | 0 => rfl
  | fuel + 1 => by simp [afterLastF, h]

/-- `afterLast` is the identity when the separator does not occur. -/
theorem afterLast_of_none {sep l : List Char}
    (h : dropThroughFirst? sep l = none) : afterLast sep l = l := by
  unfold afterLast
  split
  · rfl
  · exact afterLastF_of_none h _

set_option maxRecDepth 4000 in
/-- Scanning the production URL prefix: the first occurrence of
`"/location/"` in `"https://rickandmortyapi.com/api/location/" ++ ds` is the
trailing one, for every suffix `ds`. -/
theorem dropThroughFirst?_api_loc (ds : List Char)
    : dropThroughFirst? "/location/".toList
        ("https://rickandmortyapi.com/api/location/".toList ++ ds) = some ds := by
  have h : "https://rickandmortyapi.com/api/location/".toList =
      "https://rickandmortyapi.com/api".toList ++ "/location/".toList := by rfl
  simp only [h, List.append_assoc]
  simp +decide [dropThroughFirst?, List.isPrefixOf, String.toList, String.data]

/-- The tail after the last `"/location/"` in a production URL whose
trailing segment is all digits is exactly that segment. -/
theorem afterLast_api_loc {ds : List Char} (h : ds.all isAsciiDigit = true)
    : afterLast "/location/".toList
        ("https://rickandmortyapi.com/api/location/".toList ++ ds) = ds := by
  unfold afterLast
  rw [if_neg (by decide)]
  have hlen : ("https://rickandmortyapi.com/api/location/".toList ++ ds).length
      = (40 + ds.length) + 1 := by
    rw [List.length_append]
    have h41 : ("https://rickandmortyapi.com/api/location/".toList).length = 41 := by
      decide
    omega
  rw [hlen]
  simp only [afterLastF, dropThroughFirst?_api_loc]
  exact afterLastF_of_none (dropThroughFirst?_loc_of_digits h) _

/-- String-level restatement: `toList` distributes over the append used to
build production URLs. -/
theorem toList_api_loc_append (ds : List Char)
    : ("https://rickandmortyapi.com/api/location/" ++ String.mk ds).toList
      = "https://rickandmortyapi.com/api/location/".toList ++ ds := by
  simp [String.toList]

/-- utils.extract_id_from_url on a production location URL with an
all-digit trailing segment returns the encoded integer. -/
theorem extract_id_from_url_api_loc {ds : List Char} (hne : ds ≠ [])
    (h : ds.all isAsciiDigit = true)
    : extract_id_from_url
        ("https://rickandmortyapi.com/api/location/" ++ String.mk ds) "location"
      = some (digitsVal ds) := by
  have hsep : ("/" ++ "location" ++ "/").toList = "/location/".toList := by rfl
  have htl := toList_api_loc_append ds
  have hcon : pyContains "/location/".toList
      ("https://rickandmortyapi.com/api/location/".toList ++ ds) = true := by
    unfold pyContains
    rw [dropThroughFirst?_api_loc]
    rfl
  have hne2 : ("https://rickandmortyapi.com/api/location/".toList ++ ds) ≠ [] := by
    intro hempty
    exact absurd (List.append_eq_nil.mp hempty).1 (by decide)
  unfold extract_id_from_url
  rw [htl, hsep, if_neg hne2, if_pos hcon, afterLast_api_loc h,
    pyInt?_of_digits hne h]

/-- models.Character.get_location_id on a character whose stored location
URL is a production location URL with all-digit trailing segment. -/
theorem get_location_id_api_loc {ch : Character} {ds : List Char}
    (hne : ds ≠ []) (h : ds.all isAsciiDigit = true)
    (hurl : ch.location.url? =
      some ("https://rickandmortyapi.com/api/location/" ++ String.mk ds))
    : ch.get_location_id = some (digitsVal ds) := by
  have htl := toList_api_loc_append ds
  have hcon : pyContains "/location/".toList
      ("https://rickandmortyapi.com/api/location/".toList ++ ds) = true := by
    unfold pyContains
    rw [dropThroughFirst?_api_loc]
    rfl
  have hne2 : ("https://rickandmortyapi.com/api/location/".toList ++ ds) ≠ [] := by
    intro hempty
    exact absurd (List.append_eq_nil.mp hempty).1 (by decide)
  have htr : ch.location.truthy = true := by
    simp [RawLocRef.truthy, hurl]
  unfold Character.get_location_id
  rw [hurl]
  simp only [Option.getD_some, Option.isSome_some, htr, Bool.and_self, htl]
  rw [if_pos trivial, if_pos (by rw [decide_eq_true hne2, hcon]; rfl),
    afterLast_api_loc h, pyInt?_of_digits hne h]

/-- An absent location URL makes get_location_id return `none`. -/
theorem get_location_id_of_no_url {ch : Character}
    (h : ch.location.url? = none) : ch.get_location_id = none := by
  unfold Character.get_location_id
  simp [h]

/-- C5: ID extraction from a reference URL (get_location_id /
extract_id_from_url) returns the integer encoded as the trailing path
segment; for an absent, empty, or malformed URL it returns the distinct
unresolved value `none`, never raises (both functions are total by
construction), and never returns `0` in place of "unknown" (the unknown
outcome is always `none`, produced by every non-parsing branch). -/
theorem C5_id_extraction :
    (∀ ds : List Char, ds ≠ [] → ds.all isAsciiDigit = true →
      extract_id_from_url
        ("https://rickandmortyapi.com/api/location/" ++ String.mk ds) "location"
        = some (digitsVal ds))
    ∧ (∀ (ch : Character) (ds : List Char), ds ≠ [] →
        ds.all isAsciiDigit = true →
        ch.location.url? =
          some ("https://rickandmortyapi.com/api/location/" ++ String.mk ds) →
        ch.get_location_id = some (digitsVal ds))
    ∧ extract_id_from_url "" "location" = none
    ∧ extract_id_from_url "https://rickandmortyapi.com/api/character/7" "location" = none
    ∧ extract_id_from_url "https://rickandmortyapi.com/api/location/abc" "location" = none
    ∧ extract_id_from_url "https://rickandmortyapi.com/api/location/" "location" = none
    ∧ (∀ ch : Character, ch.location.url? = none → ch.get_location_id = none) := by
  refine ⟨?_, ?_, by decide, by decide, by decide, by decide, ?_⟩
  · intro ds hne h
    exact extract_id_from_url_api_loc hne h
  · intro ch ds hne h hurl
    exact get_location_id_api_loc hne h hurl
  · intro ch h
    exact get_location_id_of_no_url h

/-- C5 witness: the spec's own example URL `.../location/7` resolves to 7
through both extraction paths, instantiating the quantified clauses of
C5_id_extraction at the digit list `['7']`. -/
theorem C5_id_extraction_witness :
    extract_id_from_url
      ("https://rickandmortyapi.com/api/location/" ++ String.mk ['7']) "location"
      = some (digitsVal ['7'])
    ∧ ({ id := 1, name := "Rick Sanchez", status := "Alive", species := "Human",
         type := "", gender := "Male", origin := ⟨"Earth (C-137)", ""⟩,
         location := ⟨some "Citadel of Ricks",
           some ("https://rickandmortyapi.com/api/location/" ++ String.mk ['7'])⟩,
         image := "", episode := [], url := "", created := "" } : Character).get_location_id
      = some (digitsVal ['7']) :=
  ⟨C5_id_extraction.1 ['7'] (by decide) (by decide),
   C5_id_extraction.2.1 _ ['7'] (by decide) (by decide) rfl⟩

/- ### src/src/shared/utils.py : APIError, retry_with_backoff,
     handle_api_error -/

/-- The transient transport exceptions `requests` raises (`Timeout` and
`ConnectionError` are subclasses of `RequestException`; together they are
exactly the classes in retry_with_backoff's default `exceptions` tuple). -/
inductive NetExc where
  | timeout
  | connectionError
  | otherRequestException (msg : String)
deriving Repr, DecidableEq

/-- utils.APIError: a message, an optional upstream status code. -/
structure ApiErr where
  msg : String
  status_code : Option Nat := none
deriving Repr, DecidableEq

/-- An exception as seen by retry_with_backoff's `except` clause: either a
`requests` exception (member of the default tuple) or an `APIError` (which
is a plain `Exception`, not a `RequestException`). `raiseNone` models the
`TypeError` Python raises on `raise None` when `max_retries = 0` leaves
`last_exception` unset. -/
inductive PyErr where
  | net (e : NetExc)
  | api (e : ApiErr)
  | raiseNone
deriving Repr, DecidableEq

/-- Whether retry_with_backoff's `except exceptions` clause catches the
error: true exactly for members of `(RequestException, Timeout,
ConnectionError)`. -/
def PyErr.retryable : PyErr → Bool
  | .net _ => true
  | _ => false

/-- Observable outcome of one decorated call: the returned value or raised
error, the number of times the wrapped function ran, and the sequence of
`time.sleep` durations in seconds. -/
structure RetryOutcome (α : Type) where
  result : Except PyErr α
  attemptsMade : Nat
  sleeps : List Rat
deriving Repr

/-- The loop body of utils.retry_with_backoff: `for attempt in
range(max_retries)`, re-running `op` on errors from the `exceptions` tuple,
sleeping `delay * backoff ** attempt` between attempts, re-raising the last
caught exception when the loop ends.  `attempt` is the current index,
`last` the saved `last_exception`. -/
def retryGo (op : Nat → Except PyErr α) (delay backoff : Rat)
    (max_retries : Nat) (attempt : Nat) (fuel : Nat) (last : Option PyErr)
    : RetryOutcome α :=
  match fuel with
  | 0 => ⟨.error (last.getD .raiseNone), attempt, []⟩
  | fuel + 1 =>
    match op attempt with
    | .ok a => ⟨.ok a, attempt + 1, []⟩
    | .error e =>
      if e.retryable then
        if attempt < max_retries - 1 then
          let r := retryGo op delay backoff max_retries (attempt + 1) fuel (some e)
          ⟨r.result, r.attemptsMade, delay * backoff ^ attempt :: r.sleeps⟩
        else
          retryGo op delay backoff max_retries (attempt + 1) fuel (some e)
      else ⟨.error e, attempt + 1, []⟩

/-- utils.retry_with_backoff applied to a zero-argument operation whose
behaviour on the i-th run is `op i`.  The loop index runs over
`range(max_retries)`: the structural fuel `max_retries` with starting
index 0 realises exactly those iterations (the fuel-0 case is the loop
running out, reaching `raise last_exception`). -/
def retry_with_backoff (max_retries : Nat) (delay backoff : Rat)
    (op : Nat → Except PyErr α) : RetryOutcome α :=
  retryGo op delay backoff max_retries 0 max_retries none

/-- An HTTP response as far as the modelled code inspects it: status code,
the `retry-after` header when present and numeric (read by src/main.py
only — nothing in src/src reads it), and the parsed JSON body when it is a
dict. -/
structure HttpResponse (γ : Type) where
  status : Nat
  retry_after? : Option Nat := none
  jsonDict? : Option γ := none
deriving Repr, DecidableEq

/-- What one `session.get` call does: return a response or raise a
transport exception. -/
inductive HttpOutcome (γ : Type) where
  | resp (r : HttpResponse γ)
  | timeout
  | connectionError
  | requestException (msg : String)
deriving Repr, DecidableEq

/-- utils.handle_api_error: the `APIError` it raises for a non-200 status,
`none` when it falls through (2xx/3xx other than 200).  The 4xx message
carries `response.text`, not modelled beyond a fixed prefix. -/
def handle_api_error (status : Nat) : Option ApiErr :=
  if status = 404 then some ⟨"Resource not found", some 404⟩
  else if status = 429 then some ⟨"Rate limit exceeded", some 429⟩
  else if 500 ≤ status then some ⟨"Server error", some status⟩
  else if 400 ≤ status then some ⟨"Client error", some status⟩
  else none

/-- The body of RESTClient._make_request (identical in rest_client.py and
rest_client_v2.py up to one message string): perform the GET; on a non-200
status run handle_api_error; reject non-dict payloads; convert every
`requests` exception to an `APIError` (`Timeout` to status 408) before the
decorator can see it. -/
def make_request_body (o : HttpOutcome γ) : Except PyErr γ :=
  match o with
  | .timeout => .error (.api ⟨"Request timeout", some 408⟩)
  | .connectionError => .error (.api ⟨"Connection error", none⟩)
  | .requestException m => .error (.api ⟨"Request failed: " ++ m, none⟩)
  | .resp r =>
    if r.status ≠ 200 then
      match handle_api_error r.status with
      | some e => .error (.api e)
      | none => .error (.api ⟨"Invalid response format", none⟩)
    else
      match r.jsonDict? with
      | none => .error (.api ⟨"Invalid response format", none⟩)
      | some j => .ok j

/-- RESTClient._make_request: the body above wrapped in
`@retry_with_backoff()` with the Config defaults.  `trace i` is what the
transport does on the i-th run. -/
def make_request (trace : Nat → HttpOutcome γ) : RetryOutcome γ :=
  retry_with_backoff maxRetriesDefault retryDelayDefault retryBackoffDefault
    (fun i => make_request_body (trace i))

/- ### src/main.py : RickAndMortyClient._get -/

/-- The terminal outcomes of main.py's `_get`: a payload, or process exit
via `sys.exit(1)`. -/
inductive MainErr where
  | sysExit (code : Nat)
deriving Repr, DecidableEq

/-- Observable outcome of one `_get` call: result, number of `session.get`
calls, recorded `time.sleep` durations (seconds, in order). -/
structure MainGetOutcome (γ : Type) where
  result : Except MainErr γ
  attemptsMade : Nat
  sleeps : List Nat
deriving Repr

/-- The loop of main.py's `_get` (`for attempt in range(max_retries + 1)`),
at loop index `attempt ≤ max_retries`.  A 429 before the bound sleeps
`int(headers.get('retry-after', 2 ** attempt))` and continues; a 429 at the
bound hits `raise_for_status`, whose `HTTPError` is caught by the generic
`except RequestException` handler, which prints and calls `sys.exit(1)`.
Other non-2xx statuses also raise through `raise_for_status` into that
handler (retried with `2 ** attempt` backoff, `sys.exit(1)` at the bound),
as do transport exceptions.  A non-numeric `retry-after` header would raise
an uncaught `ValueError` (not modelled: `retry_after?` holds the numeric
value when the header is present); an unparsable JSON body raises
`requests`' `JSONDecodeError`, a `RequestException`, modelled by the same
handler. -/
def main_get_go (trace : Nat → HttpOutcome γ) (max_retries : Nat)
    (attempt : Nat) (fuel : Nat) : MainGetOutcome γ :=
  match fuel with
  | 0 => ⟨.error (.sysExit 1), attempt, []⟩
  | fuel + 1 =>
    match trace attempt with
    | .resp r =>
      if r.status = 429 then
        if attempt < max_retries then
          let w := r.retry_after?.getD (2 ^ attempt)
          let rest := main_get_go trace max_retries (attempt + 1) fuel
          ⟨rest.result, rest.attemptsMade, w :: rest.sleeps⟩
        else ⟨.error (.sysExit 1), attempt + 1, []⟩
      else if 400 ≤ r.status then
        if attempt < max_retries then
          let rest := main_get_go trace max_retries (attempt + 1) fuel
          ⟨rest.result, rest.attemptsMade, 2 ^ attempt :: rest.sleeps⟩
        else ⟨.error (.sysExit 1), attempt + 1, []⟩
      else
        match r.jsonDict? with
        | some j => ⟨.ok j, attempt + 1, []⟩
        | none =>
          if attempt < max_retries then
            let rest := main_get_go trace max_retries (attempt + 1) fuel
            ⟨rest.result, rest.attemptsMade, 2 ^ attempt :: rest.sleeps⟩
          else ⟨.error (.sysExit 1), attempt + 1, []⟩
    | _ =>
      if attempt < max_retries then
        let rest := main_get_go trace max_retries (attempt + 1) fuel
        ⟨rest.result, rest.attemptsMade, 2 ^ attempt :: rest.sleeps⟩
      else ⟨.error (.sysExit 1), attempt + 1, []⟩

/-- main.py RickAndMortyClient._get with its default `max_retries = 3`:
the loop runs indices 0..3 (`range(max_retries + 1)`), realised by fuel 4
from index 0 (fuel 0 is unreachable — every index-3 iteration returns or
exits). -/
def main_get (trace : Nat → HttpOutcome γ) : MainGetOutcome γ :=
  main_get_go trace 3 0 4

/-- C2 counterexample: with the Config defaults (MAX_RETRIES = 3,
RETRY_DELAY = 1, RETRY_BACKOFF = 2), an operation that raises `Timeout` on
every run is attempted exactly 3 times in total — not the claimed 4 — with
backoff sleeps of 1 and 2 seconds, and the error that finally surfaces is
the re-raised raw `Timeout` (`raise last_exception`), not an `APIError`. -/
theorem C2_transient_retry_counterexample :
    (retry_with_backoff maxRetriesDefault retryDelayDefault retryBackoffDefault
        (fun _ => (Except.error (PyErr.net NetExc.timeout) : Except PyErr Unit)))
      = ⟨Except.error (PyErr.net NetExc.timeout), 3, [1, 2]⟩
    ∧ (retry_with_backoff maxRetriesDefault retryDelayDefault retryBackoffDefault
        (fun _ => (Except.error (PyErr.net NetExc.timeout) : Except PyErr Unit))).attemptsMade
      ≠ 4 := by
  constructor
  · simp [retry_with_backoff, retryGo, maxRetriesDefault, retryDelayDefault,
      retryBackoffDefault, PyErr.retryable]
  · decide

/-- C2 as the code actually behaves: (1) an operation raising errors from
the decorator's exception tuple on every run is retried with sleeps of
`delay * backoff ^ attempt` for a DEFAULT bound of 3 total attempts
(2 retries), after which the LAST RAW exception is re-raised unwrapped;
(2,3) in the composed REST `_make_request`, the wrapped body converts
`Timeout` / `ConnectionError` to `APIError` (status 408 for timeout) before
the decorator sees them, and `APIError` is not in the decorator's tuple, so
a transient transport failure surfaces as that `APIError` on the FIRST
attempt, with no retry and no sleep. -/
theorem C2_transient_retry_amended :
    (∀ (α : Type) (op : Nat → Except PyErr α) (es : Nat → PyErr),
      (∀ i, i < 3 → op i = .error (es i)) →
      (∀ i, i < 3 → (es i).retryable = true) →
      retry_with_backoff maxRetriesDefault retryDelayDefault retryBackoffDefault op
        = ⟨.error (es 2), 3, [1, 2]⟩)
    ∧ (∀ (γ : Type) (trace : Nat → HttpOutcome γ), trace 0 = .timeout →
        make_request trace = ⟨.error (.api ⟨"Request timeout", some 408⟩), 1, []⟩)
    ∧ (∀ (γ : Type) (trace : Nat → HttpOutcome γ), trace 0 = .connectionError →
        make_request trace = ⟨.error (.api ⟨"Connection error", none⟩), 1, []⟩) := by
  refine ⟨?_, ?_, ?_⟩
  · intro α op es hop hr
    have h0 := hop 0 (by omega)
    have h1 := hop 1 (by omega)
    have h2 := hop 2 (by omega)
    have hr0 := hr 0 (by omega)
    have hr1 := hr 1 (by omega)
    have hr2 := hr 2 (by omega)
    simp [retry_with_backoff, retryGo, maxRetriesDefault, retryDelayDefault,
      retryBackoffDefault, h0, h1, h2, hr0, hr1, hr2]
  · intro γ trace h0
    simp [make_request, retry_with_backoff, retryGo, maxRetriesDefault,
      make_request_body, h0, PyErr.retryable]
  · intro γ trace h0
    simp [make_request, retry_with_backoff, retryGo, maxRetriesDefault,
      make_request_body, h0, PyErr.retryable]

/-- C2 witness: the amended behaviour at concrete inputs — an
always-connection-erroring operation under the bare decorator, and a
timeout on the composed `_make_request`. -/
theorem C2_transient_retry_amended_witness :
    retry_with_backoff maxRetriesDefault retryDelayDefault retryBackoffDefault
        (fun _ => (Except.error (PyErr.net NetExc.connectionError) : Except PyErr Unit))
      = ⟨.error (.net .connectionError), 3, [1, 2]⟩
    ∧ make_request (fun _ => (HttpOutcome.timeout : HttpOutcome Unit))
      = ⟨.error (.api ⟨"Request timeout", some 408⟩), 1, []⟩ :=
  ⟨C2_transient_retry_amended.1 Unit _ (fun _ => .net .connectionError)
      (fun _ _ => rfl) (fun _ _ => rfl),
   C2_transient_retry_amended.2.1 Unit _ rfl⟩

/-- C4 counterexample: a 429 response carrying `retry-after: 2` surfaces
from the Retry-Policy-wrapped `_make_request` immediately on the first
attempt as `APIError` with status 429, with NO sleep at all — the policy
never waits the server-supplied 2 seconds and never retries, because
`handle_api_error` converts the 429 to an `APIError`, which the decorator's
exception tuple does not cover. -/
theorem C4_rate_limit_counterexample :
    make_request (fun _ => (HttpOutcome.resp ⟨429, some 2, none⟩ : HttpOutcome Unit))
      = ⟨.error (.api ⟨"Rate limit exceeded", some 429⟩), 1, []⟩ := rfl

/-- C4 as the code actually behaves: (1) in the utils-based Retry Policy
(retry_with_backoff + handle_api_error, the components the spec names), ANY
429 response raises `APIError` with status 429 on the first attempt with no
wait, whatever `retry-after` says; (2) the standalone main.py client does
wait the server-supplied `retry-after` (2 seconds here) before each next
attempt, but once 429s repeat beyond its bound (4 total attempts) it exits
the process with code 1 via `sys.exit` — it does not raise an error
carrying status 429 either. -/
theorem C4_rate_limit_amended :
    (∀ (γ : Type) (trace : Nat → HttpOutcome γ) (r : HttpResponse γ),
      trace 0 = .resp r → r.status = 429 →
      make_request trace = ⟨.error (.api ⟨"Rate limit exceeded", some 429⟩), 1, []⟩)
    ∧ (∀ (γ : Type) (trace : Nat → HttpOutcome γ),
      (∀ i, trace i = .resp ⟨429, some 2, none⟩) →
      main_get trace = ⟨.error (.sysExit 1), 4, [2, 2, 2]⟩) := by
  constructor
  · intro γ trace r h0 hs
    simp [make_request, retry_with_backoff, retryGo, maxRetriesDefault,
      make_request_body, h0, hs, handle_api_error, PyErr.retryable]
  · intro γ trace h
    have h0 := h 0
    have h1 := h 1
    have h2 := h 2
    have h3 := h 3
    simp [main_get, main_get_go, h0, h1, h2, h3]

/-- C4 witness: the amended behaviour at concrete all-429 traces for both
clients. -/
theorem C4_rate_limit_amended_witness :
    make_request (fun _ => (HttpOutcome.resp ⟨429, none, none⟩ : HttpOutcome Unit))
      = ⟨.error (.api ⟨"Rate limit exceeded", some 429⟩), 1, []⟩
    ∧ main_get (fun _ => (HttpOutcome.resp ⟨429, some 2, none⟩ : HttpOutcome Unit))
      = ⟨.error (.sysExit 1), 4, [2, 2, 2]⟩ :=
  ⟨C4_rate_limit_amended.1 Unit _ ⟨429, none, none⟩ rfl rfl,
   C4_rate_limit_amended.2 Unit _ (fun _ => rfl)⟩

/- ### src/src/shared/base_client.py : _paginate_with_progress -/

/-- How a paginated fetch aborts: `underlying` is an exception propagating
unwrapped (page-1 failures in _paginate_with_progress, every failure in the
legacy clients); `wrapped` is the `APIError(f"Failed to fetch {description}
page {page}: {e}")` raised by the pages-2..N loop, naming the resource
description and the failing page. -/
inductive PagAbort (ε : Type) where
  | underlying (e : ε)
  | wrapped (description : String) (page : Nat) (e : ε)
deriving Repr, DecidableEq

/-- A raw single-page response as _paginate_with_progress reads it via
duck typing: `getPages r` is `r.get('info', {}).get('pages')` (`none` when
either key is absent — the caller applies the Python default 1), and
`getResults r` is `r.get('results', [])`. -/
def paginatePages (getResults : ρ → List α) (parse : α → β)
    (fetch : Nat → Except ε ρ) (description : String)
    : List Nat → Except (PagAbort ε) (List β)
  | [] => .ok []
  | p :: ps =>
    match fetch p with
    | .error e => .error (.wrapped description p e)
    | .ok r =>
      match paginatePages getResults parse fetch description ps with
      | .error a => .error a
      | .ok rest => .ok ((getResults r).map parse ++ rest)

/-- BaseAPIClient._paginate_with_progress: fetch page 1 (its errors
propagate unwrapped), read `total_pages = info.get('pages', 1)`, parse the
first page, then loop `for page in range(2, total_pages + 1)` with each
iteration's exceptions wrapped into an `APIError` naming the description
and page; any error discards the accumulated items. -/
def paginate_with_progress (getPages : ρ → Option Nat) (getResults : ρ → List α)
    (parse : α → β) (fetch : Nat → Except ε ρ) (description : String)
    : Except (PagAbort ε) (List β) :=
  match fetch 1 with
  | .error e => .error (.underlying e)
  | .ok r1 =>
    match paginatePages getResults parse fetch description
        (List.range' 2 ((getPages r1).getD 1 - 1)) with
    | .error a => .error a
    | .ok rest => .ok ((getResults r1).map parse ++ rest)

/-- The REST JSON envelope: top-level `info.pages` (when present) and
top-level `results`.  An absent `results` key is the empty list. -/
structure RestEnvelope (α : Type) where
  info_pages? : Option Nat := none
  results : List α := []
deriving Repr, DecidableEq

/-- rest_client_v2 fetch_all_characters / fetch_all_locations: the base
paginator reading the REST envelope's top-level keys. -/
def rest_v2_fetch_all (parse : α → β) (fetch : Nat → Except ε (RestEnvelope α))
    (description : String) : Except (PagAbort ε) (List β) :=
  paginate_with_progress (fun r => r.info_pages?) (fun r => r.results)
    parse fetch description

/-- The GraphQL envelope for a single-resource query as gql's `execute`
returns it: the page object (info + results) lives UNDER the resource root
key (`characters` / `locations`); there are no top-level `info` or
`results` keys. -/
structure GqlEnvelope (α : Type) where
  page : RestEnvelope α
deriving Repr, DecidableEq

/-- graphql_client_v2 fetch_all_characters: passes `fetch_page` (returning
the whole GraphQL envelope) straight to _paginate_with_progress, whose
reads `response.get('info', {})` and `response.get('results', [])` find no
such top-level keys on a GraphQL envelope and therefore yield the defaults
(`pages` absent, results empty). -/
def graphql_v2_fetch_all (parse : α → β) (fetch : Nat → Except ε (GqlEnvelope α))
    (description : String) : Except (PagAbort ε) (List β) :=
  paginate_with_progress (fun _ => none) (fun _ => []) parse fetch description

/- ### src/src/rest/rest_client.py : legacy fetch_all_characters /
     fetch_all_locations -/

/-- The pages-2..N loop of the legacy client (`while page < total_pages`):
no try/except — a page error propagates raw. -/
def legacyPages (fetchPage : Nat → Except ε (List β × PaginationInfo))
    : List Nat → Except ε (List β)
  | [] => .ok []
  | p :: ps =>
    match fetchPage p with
    | .error e => .error e
    | .ok (items, _) =>
      match legacyPages fetchPage ps with
      | .error e => .error e
      | .ok rest => .ok (items ++ rest)

/-- Legacy RESTClient.fetch_all_characters / fetch_all_locations: fetch
page 1, read `total_pages = info.pages`, then `while page < total_pages`
fetch pages 2..total_pages, appending in page order.  No error handling at
this level: any `APIError` from a page aborts the whole fetch unwrapped. -/
def legacy_fetch_all (fetchPage : Nat → Except ε (List β × PaginationInfo))
    : Except ε (List β) :=
  match fetchPage 1 with
  | .error e => .error e
  | .ok (items1, info) =>
    match legacyPages fetchPage (List.range' 2 (info.pages - 1)) with
    | .error e => .error e
    | .ok rest => .ok (items1 ++ rest)

/-- The pages-2..N loop on an everywhere-succeeding fetch returns the
concatenation of parsed page results in list order. -/
theorem paginatePages_ok {ρ α β : Type} (getResults : ρ → List α)
    (parse : α → β) (pages : Nat → ρ) (description : String)
    : ∀ ps : List Nat,
      paginatePages getResults parse (fun p => (.ok (pages p) : Except Unit ρ))
          description ps
        = .ok ((ps.map (fun p => (getResults (pages p)).map parse)).flatten)
  | [] => rfl
  | p :: ps => by
    simp [paginatePages, paginatePages_ok getResults parse pages description ps]

/-- _paginate_with_progress on an everywhere-succeeding fetch whose first
page reports `pages = P ≥ 1` returns exactly the parsed records of pages
1..P, page-ascending, inner order preserved. -/
theorem paginate_with_progress_ok {ρ α β : Type} (getPages : ρ → Option Nat)
    (getResults : ρ → List α) (parse : α → β) (pages : Nat → ρ)
    (description : String) (P : Nat) (hP : getPages (pages 1) = some P)
    (hge : 1 ≤ P)
    : paginate_with_progress getPages getResults parse
        (fun p => (.ok (pages p) : Except Unit ρ)) description
      = .ok (((List.range' 1 P).map
          (fun p => (getResults (pages p)).map parse)).flatten) := by
  obtain ⟨k, rfl⟩ : ∃ k, P = k + 1 := ⟨P - 1, by omega⟩
  have hr : List.range' 1 (k + 1) = 1 :: List.range' 2 k := by
    simp [List.range']
  rw [paginate_with_progress]
  simp only [hP, Option.getD_some, Nat.add_sub_cancel,
    paginatePages_ok getResults parse pages description, hr]
  simp

/-- C1: the REST facade paginator does return every page's parsed records
in order, but the GraphQL v2 facade paginator returns the EMPTY list on the
very same logical data, because it hands `_paginate_with_progress` the raw
GraphQL envelope, whose page object sits under the resource root key where
the paginator's top-level `info`/`results` reads find nothing.  Concrete
run: every page reports `pages = 2` and carries two items; REST yields all
four items, GraphQL v2 yields none. -/
theorem C1_paginated_fetch :
    graphql_v2_fetch_all id
        (fun p => (.ok ⟨⟨some 2, [10 * p + 1, 10 * p + 2]⟩⟩
          : Except Unit (GqlEnvelope Nat))) "characters"
      = .ok []
    ∧ (⟨⟨some 2, [11, 12]⟩⟩ : GqlEnvelope Nat).page.results.length = 2
    ∧ rest_v2_fetch_all id
        (fun p => (.ok ⟨some 2, [10 * p + 1, 10 * p + 2]⟩
          : Except Unit (RestEnvelope Nat))) "characters"
      = .ok [11, 12, 21, 22]
    ∧ (∀ (α β : Type) (parse : α → β) (pages : Nat → RestEnvelope α) (P : Nat),
        (pages 1).info_pages? = some P → 1 ≤ P →
        rest_v2_fetch_all parse (fun p => (.ok (pages p) : Except Unit _)) "x"
          = .ok (((List.range' 1 P).map
              (fun p => (pages p).results.map parse)).flatten)) := by
  refine ⟨rfl, rfl, rfl, ?_⟩
  intro α β parse pages P hP hge
  exact paginate_with_progress_ok _ _ parse pages "x" P hP hge

/-- C1 witness: the universally quantified REST clause of
C1_paginated_fetch instantiated at a concrete three-page fetch. -/
theorem C1_paginated_fetch_witness :
    rest_v2_fetch_all id
        (fun p => (.ok ⟨some 3, [p]⟩ : Except Unit (RestEnvelope Nat))) "x"
      = .ok [1, 2, 3] := by
  have h := C1_paginated_fetch.2.2.2 Nat Nat id
    (fun p => ⟨some 3, [p]⟩) 3 rfl (by omega)
  simpa using h

/-- First failure inside the pages-2..N loop: pages before `q` succeed,
page `q` fails, and the loop aborts with the wrapped error naming the
description and `q` — whatever was accumulated is discarded. -/
theorem paginatePages_first_fail {ρ α β ε : Type} (getResults : ρ → List α)
    (parse : α → β) (fetch : Nat → Except ε ρ) (description : String)
    {q : Nat} {e : ε} (hq : fetch q = .error e)
    : ∀ (ps₁ ps₂ : List Nat), (∀ p ∈ ps₁, ∃ r, fetch p = .ok r) →
      paginatePages getResults parse fetch description (ps₁ ++ q :: ps₂)
        = .error (.wrapped description q e)
  | [], ps₂, _ => by simp [paginatePages, hq]
  | p :: ps₁, ps₂, hok => by
    obtain ⟨r, hr⟩ := hok p (by simp)
    have ih := paginatePages_first_fail getResults parse fetch description hq
      ps₁ ps₂ (fun x hx => hok x (by simp [hx]))
    simp [paginatePages, hr, ih]

/-- First failure in the legacy while-loop: the raw error propagates. -/
theorem legacyPages_first_fail {β ε : Type}
    (fetchPage : Nat → Except ε (List β × PaginationInfo))
    {q : Nat} {e : ε} (hq : fetchPage q = .error e)
    : ∀ (ps₁ ps₂ : List Nat), (∀ p ∈ ps₁, ∃ x, fetchPage p = .ok x) →
      legacyPages fetchPage (ps₁ ++ q :: ps₂) = .error e
  | [], ps₂, _ => by simp [legacyPages, hq]
  | p :: ps₁, ps₂, hok => by
    obtain ⟨x, hx⟩ := hok p (by simp)
    have ih := legacyPages_first_fail fetchPage hq ps₁ ps₂
      (fun y hy => hok y (by simp [hy]))
    simp [legacyPages, hx, ih]

/-- Splitting the page range 2..P at the first failing page q. -/
theorem range'_split_at {q P : Nat} (h2 : 2 ≤ q) (hP : q ≤ P)
    : List.range' 2 (P - 1)
      = List.range' 2 (q - 2) ++ q :: List.range' (q + 1) (P - q) := by
  have h1 := (List.range'_append 2 (q - 2) (P - q + 1) 1).symm
  have e1 : 2 + 1 * (q - 2) = q := by omega
  have e2 : P - q + 1 + (q - 2) = P - 1 := by omega
  rw [e1, e2] at h1
  rw [h1]
  congr 1

/-- C6 counterexample: in the legacy REST client the claim fails — when
page 2 of a 3-page characters fetch times out (the Retry Policy having
produced `APIError("Request timeout", 408)`), the whole fetch aborts with
that raw error, whose message names neither the resource nor the failing
page number. -/
theorem C6_page_failure_counterexample :
    legacy_fetch_all
        (fun p => if p = 1 then .ok ([1], (⟨40, 3⟩ : PaginationInfo))
          else (.error ⟨"Request timeout", some 408⟩
            : Except ApiErr (List Nat × PaginationInfo)))
      = .error ⟨"Request timeout", some 408⟩
    ∧ pyContains "characters".toList "Request timeout".toList = false
    ∧ pyContains "page".toList "Request timeout".toList = false := by
  refine ⟨rfl, by decide, by decide⟩

/-- C6 as the code actually behaves: every single-page failure aborts the
whole paginated fetch with an error — no partial record list is ever
returned — but the abort error names the resource and failing page ONLY
when the failure hits pages 2..N of the shared base-client paginator
(clause 2); a failure on page 1 there (clause 1), and any failure in the
legacy REST client (clauses 3 and 4), propagate the underlying error
unchanged. -/
theorem C6_page_failure_amended :
    (∀ (ρ α β ε : Type) (getPages : ρ → Option Nat) (getResults : ρ → List α)
      (parse : α → β) (fetch : Nat → Except ε ρ) (d : String) (e : ε),
      fetch 1 = .error e →
      paginate_with_progress getPages getResults parse fetch d
        = .error (.underlying e))
    ∧ (∀ (ρ α β ε : Type) (getPages : ρ → Option Nat) (getResults : ρ → List α)
      (parse : α → β) (fetch : Nat → Except ε ρ) (d : String) (e : ε)
      (r1 : ρ) (P q : Nat),
      fetch 1 = .ok r1 → getPages r1 = some P → 2 ≤ q → q ≤ P →
      (∀ p, 2 ≤ p → p < q → ∃ r, fetch p = .ok r) → fetch q = .error e →
      paginate_with_progress getPages getResults parse fetch d
        = .error (.wrapped d q e))
    ∧ (∀ (β ε : Type) (fetchPage : Nat → Except ε (List β × PaginationInfo))
      (e : ε), fetchPage 1 = .error e → legacy_fetch_all fetchPage = .error e)
    ∧ (∀ (β ε : Type) (fetchPage : Nat → Except ε (List β × PaginationInfo))
      (e : ε) (items1 : List β) (info : PaginationInfo) (q : Nat),
      fetchPage 1 = .ok (items1, info) → 2 ≤ q → q ≤ info.pages →
      (∀ p, 2 ≤ p → p < q → ∃ x, fetchPage p = .ok x) →
      fetchPage q = .error e → legacy_fetch_all fetchPage = .error e) := by
  refine ⟨?_, ?_, ?_, ?_⟩
  · intro ρ α β ε getPages getResults parse fetch d e h1
    simp [paginate_with_progress, h1]
  · intro ρ α β ε getPages getResults parse fetch d e r1 P q h1 hP h2 hq hok he
    have hmem : ∀ p ∈ List.range' 2 (q - 2), ∃ r, fetch p = .ok r := by
      intro p hp
      rw [List.mem_range'] at hp
      exact hok p (by omega) (by omega)
    have hloop := paginatePages_first_fail getResults parse fetch d he
      (List.range' 2 (q - 2)) (List.range' (q + 1) (P - q)) hmem
    simp [paginate_with_progress, h1, hP, range'_split_at h2 hq, hloop]
  · intro β ε fetchPage e h1
    simp [legacy_fetch_all, h1]
  · intro β ε fetchPage e items1 info q h1 h2 hq hok he
    have hmem : ∀ p ∈ List.range' 2 (q - 2), ∃ x, fetchPage p = .ok x := by
      intro p hp
      rw [List.mem_range'] at hp
      exact hok p (by omega) (by omega)
    have hloop := legacyPages_first_fail fetchPage he
      (List.range' 2 (q - 2)) (List.range' (q + 1) (info.pages - q)) hmem
    simp [legacy_fetch_all, h1, range'_split_at h2 hq, hloop]

/-- C6 witness: the amended clauses at a concrete fetch that fails on
page 3 of 4 (base paginator: wrapped error naming resource and page 3;
legacy client: raw error), and concrete page-1 failures. -/
theorem C6_page_failure_amended_witness :
    paginate_with_progress (fun r => r.info_pages?) (fun r => r.results) id
        (fun p => if p = 3 then .error (⟨"boom", none⟩ : ApiErr)
          else .ok (⟨some 4, [p]⟩ : RestEnvelope Nat)) "characters"
      = .error (.wrapped "characters" 3 ⟨"boom", none⟩)
    ∧ paginate_with_progress (fun r : RestEnvelope Nat => r.info_pages?)
        (fun r => r.results) id
        (fun _ => (.error (⟨"req timeout", some 408⟩ : ApiErr)
          : Except ApiErr (RestEnvelope Nat))) "characters"
      = .error (.underlying ⟨"req timeout", some 408⟩)
    ∧ legacy_fetch_all
        (fun p => if p = 3 then .error (⟨"boom", none⟩ : ApiErr)
          else .ok ([p], (⟨80, 4⟩ : PaginationInfo)))
      = .error ⟨"boom", none⟩ := by
  refine ⟨?_, ?_, ?_⟩
  · exact C6_page_failure_amended.2.1 (RestEnvelope Nat) Nat Nat ApiErr
      _ _ id _ "characters" ⟨"boom", none⟩ ⟨some 4, [1]⟩ 4 3
      rfl rfl (by omega) (by omega)
      (fun p hp1 hp2 => ⟨⟨some 4, [p]⟩, by
        have : p ≠ 3 := by omega
        simp [this]⟩)
      (by simp)
  · exact C6_page_failure_amended.1 (RestEnvelope Nat) Nat Nat ApiErr
      _ _ id _ "characters" ⟨"req timeout", some 408⟩ rfl
  · exact C6_page_failure_amended.2.2.2 Nat ApiErr _ ⟨"boom", none⟩
      [1] ⟨80, 4⟩ 3 rfl (by omega) (by decide)
      (fun p hp1 hp2 => ⟨([p], ⟨80, 4⟩), by
        have : p ≠ 3 := by omega
        simp [this]⟩)
      (by simp)

/- ### graphql_client.py / graphql_client_v2.py :
     fetch_all_data_ultra_optimized (the modelled region is line-identical
     in the two files) -/

/-- The dict returned by fetch_all_data_ultra_optimized (total_time
omitted: wall-clock time is not modelled), plus a ghost observer
`invocations` counting every `_execute_query` call actually performed
(`queries_made` is incremented only AFTER a query returns, so a raising
query is invoked but never counted). -/
structure UltraOutcome (χ δ : Type) where
  characters : List χ
  locations : List δ
  api_calls : Nat
  optimization_percentage : Rat
  invocations : Nat
deriving Repr

/-- The `while i < len(remaining_char_pages) or i < len(remaining_loc_pages)`
loop, fuelled (fuel = the number of loop iterations, `max` of the two
lengths; the fuel-0 case is the loop condition turning false).  Branches:
* both pages exist: COMBINED_PAGE_QUERY; on failure (`combinedFails`) the
  fallback issues CHARACTERS_QUERY then LOCATIONS_QUERY outside any
  try/except, so their failures propagate out of the whole function;
* only a character page exists: CHARACTERS_QUERY inside try/except — a
  failure is logged and swallowed (invoked but neither counted nor
  retried);
* only a location page exists: the body has NO branch — the iteration
  performs no query and accumulates nothing.
Result: (characters, locations, queries counted, queries invoked). -/
def ultraLoopF (parseC : γc → χ) (parseL : γl → δ)
    (charResults : Nat → List γc) (locResults : Nat → List γl)
    (combinedFails : Nat → Nat → Bool) (charFails : Nat → Bool)
    (locFails : Nat → Bool)
    : Nat → List Nat → List Nat → Except Unit (List χ × List δ × Nat × Nat)
  | 0, _, _ => .ok ([], [], 0, 0)
  | fuel + 1, remChar, remLoc =>
    match remChar, remLoc with
    | [], [] => .ok ([], [], 0, 0)
    | cp :: cs, lp :: ls =>
      if combinedFails cp lp then
        if charFails cp then .error ()
        else if locFails lp then .error ()
        else
          match ultraLoopF parseC parseL charResults locResults combinedFails
              charFails locFails fuel cs ls with
          | .error e => .error e
          | .ok (xs, ys, q, inv) =>
            .ok ((charResults cp).map parseC ++ xs,
              (locResults lp).map parseL ++ ys, 2 + q, 3 + inv)
      else
        match ultraLoopF parseC parseL charResults locResults combinedFails
            charFails locFails fuel cs ls with
        | .error e => .error e
        | .ok (xs, ys, q, inv) =>
          .ok ((charResults cp).map parseC ++ xs,
            (locResults lp).map parseL ++ ys, 1 + q, 1 + inv)
    | cp :: cs, [] =>
      if charFails cp then
        match ultraLoopF parseC parseL charResults locResults combinedFails
            charFails locFails fuel cs [] with
        | .error e => .error e
        | .ok (xs, ys, q, inv) => .ok (xs, ys, q, 1 + inv)
      else
        match ultraLoopF parseC parseL charResults locResults combinedFails
            charFails locFails fuel cs [] with
        | .error e => .error e
        | .ok (xs, ys, q, inv) =>
          .ok ((charResults cp).map parseC ++ xs, ys, 1 + q, 1 + inv)
    | [], lp :: ls =>
      match ultraLoopF parseC parseL charResults locResults combinedFails
          charFails locFails fuel [] ls with
      | .error e => .error e
      | .ok (xs, ys, q, inv) => .ok (xs, ys, q, inv)

/-- GraphQLClient.fetch_all_data_ultra_optimized: read the page counts from
the initial ALL_DATA_QUERY result (`.get(...).get('pages', 42)` /
`.get('pages', 7)` — note the hard-coded defaults), keep its page-1
results, loop over `remaining_char_pages = [2..char_pages]` and
`remaining_loc_pages = [2..loc_pages]` as above, and report
`queries_made` (starting at 1 for the initial query) and
`(49 - queries_made) / 49 * 100` — the baseline 49 is hard-coded, not
`char_pages + loc_pages`. -/
def fetch_all_data_ultra_optimized
    (firstCharPages? firstLocPages? : Option Nat)
    (firstCharResults : List γc) (firstLocResults : List γl)
    (parseC : γc → χ) (parseL : γl → δ)
    (charResults : Nat → List γc) (locResults : Nat → List γl)
    (combinedFails : Nat → Nat → Bool) (charFails : Nat → Bool)
    (locFails : Nat → Bool) : Except Unit (UltraOutcome χ δ) :=
  match ultraLoopF parseC parseL charResults locResults combinedFails
      charFails locFails
      (max (List.range' 2 (firstCharPages?.getD 42 - 1)).length
        (List.range' 2 (firstLocPages?.getD 7 - 1)).length)
      (List.range' 2 (firstCharPages?.getD 42 - 1))
      (List.range' 2 (firstLocPages?.getD 7 - 1)) with
  | .error e => .error e
  | .ok (xs, ys, q, inv) =>
    .ok { characters := firstCharResults.map parseC ++ xs
          locations := firstLocResults.map parseL ++ ys
          api_calls := 1 + q
          optimization_percentage := ((49 : Rat) - (1 + q : Nat)) / 49 * 100
          invocations := 1 + inv }

/-- With no query failures, the combined loop performs exactly one query
per iteration that has a character page — `remChar.length` in total — and
accumulates every character page but only the first `remChar.length`
location pages (location-only iterations do nothing). -/
theorem ultraLoopF_no_fail {γc γl χ δ : Type} (parseC : γc → χ)
    (parseL : γl → δ) (charResults : Nat → List γc)
    (locResults : Nat → List γl)
    : ∀ (fuel : Nat) (remChar remLoc : List Nat), remChar.length ≤ fuel →
      ultraLoopF parseC parseL charResults locResults
          (fun _ _ => false) (fun _ => false) (fun _ => false)
          fuel remChar remLoc
        = .ok ((remChar.map (fun p => (charResults p).map parseC)).flatten,
            ((remLoc.take remChar.length).map
              (fun p => (locResults p).map parseL)).flatten,
            remChar.length, remChar.length) := by
  intro fuel
  induction fuel with
  | zero =>
    intro remChar remLoc hle
    have : remChar = [] := List.length_eq_zero.mp (by omega)
    subst this
    simp [ultraLoopF]
  | succ fuel ih =>
    intro remChar remLoc hle
    cases remChar with
    | nil =>
      cases remLoc with
      | nil => simp [ultraLoopF]
      | cons lp ls => simp [ultraLoopF, ih [] ls (by simp)]
    | cons cp cs =>
      have hcs : cs.length ≤ fuel := by
        simp at hle
        omega
      cases remLoc with
      | nil =>
        simp [ultraLoopF, ih cs [] hcs]
        try omega
      | cons lp ls =>
        simp [ultraLoopF, ih cs ls hcs]
        try omega

/-- C3: at character page count 1 and location page count 3 with no
failures, the optimizer makes 1 realized API call — not `max(1,3) = 3` —
and silently returns only the first location page: location pages 2 and 3
are never requested, because the loop body has no branch for iterations
where only a location page remains (its `while` condition still iterates
over them, betraying the intent).  The claim is the intended behaviour;
the code drops data. -/
theorem C3_combined_optimizer_loc_pages :
    fetch_all_data_ultra_optimized (some 1) (some 3) [101] [201] id id
        (fun p => [100 + p]) (fun p => [200 + p])
        (fun _ _ => false) (fun _ => false) (fun _ => false)
      = .ok { characters := [101], locations := [201], api_calls := 1,
              optimization_percentage := 4800 / 49, invocations := 1 }
    ∧ (1 : Nat) ≠ max 1 3 := by
  constructor
  · simp [fetch_all_data_ultra_optimized, ultraLoopF, List.range']
    norm_num
  · decide

/-- C8 counterexample: with two character pages and two location pages and
no failures, the optimizer reports `api_calls = 2` (correct) but
`optimization_percentage = (49 - 2) / 49 * 100 = 4700/49 ≈ 95.9` — the
percentage against the HARD-CODED baseline 49, not the claimed reduction
against the naive `Pc + Pl = 4` baseline, which would be 50%. -/
theorem C8_optimizer_counters_counterexample :
    fetch_all_data_ultra_optimized (some 2) (some 2) [1] [10] id id
        (fun p => [p]) (fun p => [10 * p])
        (fun _ _ => false) (fun _ => false) (fun _ => false)
      = .ok { characters := [1, 2], locations := [10, 20], api_calls := 2,
              optimization_percentage := 4700 / 49, invocations := 2 }
    ∧ ((2 : Rat) + 2 - 2) / ((2 : Rat) + 2) * 100 = 50
    ∧ (4700 / 49 : Rat) ≠ 50 := by
  refine ⟨?_, by norm_num, by norm_num⟩
  simp [fetch_all_data_ultra_optimized, ultraLoopF, List.range']
  norm_num

/-- C8 as the code actually behaves: in every no-failure run the reported
`api_calls` does equal the number of `_execute_query` invocations actually
performed (and equals `max(char_pages, 1)`), but
`optimization_percentage` is `(49 - api_calls) / 49 * 100` for the
hard-coded production baseline 49 = 42 + 7, whatever the actual page
counts are. -/
theorem C8_optimizer_counters_amended :
    ∀ (γc γl χ δ : Type) (parseC : γc → χ) (parseL : γl → δ)
      (fcp flp : Option Nat) (fcr : List γc) (flr : List γl)
      (charResults : Nat → List γc) (locResults : Nat → List γl),
      ∃ r : UltraOutcome χ δ,
        fetch_all_data_ultra_optimized fcp flp fcr flr parseC parseL
            charResults locResults
            (fun _ _ => false) (fun _ => false) (fun _ => false)
          = .ok r
        ∧ r.api_calls = r.invocations
        ∧ r.optimization_percentage = ((49 : Rat) - r.api_calls) / 49 * 100
        ∧ r.api_calls = max (fcp.getD 42) 1 := by
  intro γc γl χ δ parseC parseL fcp flp fcr flr charResults locResults
  rw [fetch_all_data_ultra_optimized]
  rw [ultraLoopF_no_fail parseC parseL charResults locResults _ _ _
    (Nat.le_max_left _ _)]
  refine ⟨_, rfl, rfl, rfl, ?_⟩
  simp [List.length_range']
  omega

/-- C8 witness: the amended statement instantiated at a concrete
five-character-page, three-location-page dataset. -/
theorem C8_optimizer_counters_amended_witness :
    ∃ r : UltraOutcome Nat Nat,
      fetch_all_data_ultra_optimized (some 5) (some 3) [0] [0] id id
          (fun p => [p]) (fun p => [p])
          (fun _ _ => false) (fun _ => false) (fun _ => false)
        = .ok r
      ∧ r.api_calls = r.invocations
      ∧ r.optimization_percentage = ((49 : Rat) - r.api_calls) / 49 * 100
      ∧ r.api_calls = max ((some 5).getD 42) 1 :=
  C8_optimizer_counters_amended Nat Nat Nat Nat id id (some 5) (some 3)
    [0] [0] (fun p => [p]) (fun p => [p])

/- ### graphql_client_v2.py : _parse_character / _parse_location
     (identical in graphql_client.py) -/

/-- Python exceptions the GraphQL parsers can raise: `KeyError` from a
`data['key']` subscript on an absent key, `ValueError` from `int()`. -/
inductive PyExc where
  | keyError (key : String)
  | valueError (msg : String)
deriving Repr, DecidableEq

/-- `d['key']` on an optional field: the value, or a raised KeyError. -/
def pyGet (o : Option α) (key : String) : Except PyExc α :=
  match o with
  | some a => .ok a
  | none => .error (.keyError key)

/-- The nested `{id name}` reference GraphQL returns for an embedded
location (ids are GraphQL ID strings). -/
structure GqlLocRef where
  id? : Option String := none
  name? : Option String := none
deriving Repr, DecidableEq

/-- A nested `{id}` reference (episode and resident entries). -/
structure GqlIdRef where
  id? : Option String := none
deriving Repr, DecidableEq

/-- A Python list comprehension `[f(ep['id']) for ep in refs]`: left to
right, the first KeyError propagates. -/
def buildUrls (f : String → String) : List GqlIdRef → Except PyExc (List String)
  | [] => .ok []
  | ep :: l => do
    let u ← (pyGet ep.id? "id").map f
    let us ← buildUrls f l
    pure (u :: us)

/-- A raw GraphQL character record. -/
structure GqlRawCharacter where
  id? : Option String := none
  name? : Option String := none
  status? : Option String := none
  species? : Option String := none
  type? : Option String := none
  gender? : Option String := none
  origin? : Option RawLocRef := none
  location? : Option GqlLocRef := none
  image? : Option String := none
  episode? : Option (List GqlIdRef) := none
  created? : Option String := none
deriving Repr, DecidableEq

/-- A raw GraphQL location record. -/
structure GqlRawLocation where
  id? : Option String := none
  name? : Option String := none
  type? : Option String := none
  dimension? : Option String := none
  residents? : Option (List GqlIdRef) := none
  created? : Option String := none
deriving Repr, DecidableEq

/-- GraphQLClient._parse_character: normalize the nested location reference
by synthesizing a REST-style URL from its id when present and truthy
(otherwise the dict keeps only the name), rebuild episode back-reference
URLs, then feed a REST-shaped dict through Character.from_dict.  Raises
(returns `.error`) on an absent episode-entry id, an absent or unparsable
`id`, or an absent `name`/`status`/`species`; `type`/`gender`/`origin`/
`image`/`created` fall back to defaults via `.get`. -/
def _parse_character (g : GqlRawCharacter) : Except PyExc Character := do
  let location_data := g.location?.getD ⟨none, none⟩
  let location : RawLocRef :=
    if (location_data.id?.isSome || location_data.name?.isSome)
        && location_data.id?.getD "" ≠ "" then
      ⟨location_data.name?,
        some (restBaseUrl ++ "/location/" ++ location_data.id?.getD "")⟩
    else ⟨location_data.name?, none⟩
  let episode_urls ← buildUrls (fun i => restBaseUrl ++ "/episode/" ++ i)
    (g.episode?.getD [])
  let idS ← pyGet g.id? "id"
  let idV ← match pyInt? idS.toList with
    | some n => pure n
    | none => .error (.valueError "invalid literal for int() with base 10")
  let name ← pyGet g.name? "name"
  let status ← pyGet g.status? "status"
  let species ← pyGet g.species? "species"
  pure (Character.from_dict
    { id? := some idV, name? := some name, status? := some status,
      species? := some species, type? := some (g.type?.getD ""),
      gender? := some (g.gender?.getD ""),
      origin? := some (g.origin?.getD ⟨none, none⟩),
      location? := some location, image? := some (g.image?.getD ""),
      episode? := some episode_urls, created? := some (g.created?.getD "") })

/-- GraphQLClient._parse_location: rebuild resident back-reference URLs,
then feed a REST-shaped dict through Location.from_dict.  Raises on an
absent resident-entry id or absent/unparsable `id`, absent `name`/`type`/
`dimension`; `created` falls back via `.get`. -/
def _parse_location (g : GqlRawLocation) : Except PyExc Location := do
  let resident_urls ← buildUrls (fun i => restBaseUrl ++ "/character/" ++ i)
    (g.residents?.getD [])
  let idS ← pyGet g.id? "id"
  let idV ← match pyInt? idS.toList with
    | some n => pure n
    | none => .error (.valueError "invalid literal for int() with base 10")
  let name ← pyGet g.name? "name"
  let ty ← pyGet g.type? "type"
  let dim ← pyGet g.dimension? "dimension"
  pure (Location.from_dict
    { id? := some idV, name? := some name, type? := some ty,
      dimension? := some dim, residents? := some resident_urls,
      created? := some (g.created?.getD "") })

/- ### fetch_character_with_location (rest_client.py, rest_client_v2.py,
     graphql_client_v2.py) -/

/-- Python truthiness of `location_id` (an Optional[int]): `None` and `0`
are falsy. -/
def pyTruthyIntOpt : Option Int → Bool
  | none => false
  | some n => decide (n ≠ 0)

/-- Legacy RESTClient.fetch_character_with_location: fetch the character
(errors propagate untouched), and when it carries a truthy location id,
fetch that location, catching ONLY that secondary lookup's `APIError`
(logged, location left `None`). -/
def rest_fetch_character_with_location (fetchChar : Except ApiErr Character)
    (fetchLoc : Int → Except ApiErr Location)
    : Except ApiErr (Character × Option Location) :=
  match fetchChar with
  | .error e => .error e
  | .ok ch =>
    if pyTruthyIntOpt ch.get_location_id then
      match fetchLoc (ch.get_location_id.getD 0) with
      | .error _ => .ok (ch, none)
      | .ok l => .ok (ch, some l)
    else .ok (ch, none)

/-- Facade RESTClient.fetch_character_with_location (rest_client_v2.py):
same inner shape, but the whole body sits in a try/except APIError that
re-labels a status-404 failure as `APIError(f"Character {id} not found",
404)` and re-raises everything else; the secondary lookup's error is
already absorbed by the inner except and never reaches the outer one. -/
def rest_v2_fetch_character_with_location (character_id : Int)
    (fetchChar : Except ApiErr RawCharacter)
    (fetchLoc : Int → Except ApiErr RawLocation)
    : Except ApiErr (Character × Option Location) :=
  match fetchChar with
  | .error e =>
    if e.status_code = some 404 then
      .error ⟨"Character " ++ toString character_id ++ " not found", some 404⟩
    else .error e
  | .ok raw =>
    let ch := Character.from_dict raw
    if pyTruthyIntOpt ch.get_location_id then
      match fetchLoc (ch.get_location_id.getD 0) with
      | .error _ => .ok (ch, none)
      | .ok rawL => .ok (ch, some (Location.from_dict rawL))
    else .ok (ch, none)

/-- An error inside GraphQL fetch_character_with_location's outer `try`:
an `APIError` (from `_execute_query` or the explicit not-found raise) or a
parser exception escaping the inner `except APIError`. -/
inductive GqlInnerErr where
  | api (e : ApiErr)
  | parse (e : PyExc)
deriving Repr, DecidableEq

/-- `str(e)` for the inner error (Python renders `KeyError('id')` as
`'id'` with quotes). -/
def gqlInnerMsg : GqlInnerErr → String
  | .api e => e.msg
  | .parse (.keyError k) => "'" ++ k ++ "'"
  | .parse (.valueError m) => m

/-- GraphQLClient.fetch_character_with_location (graphql_client_v2.py):
run the character query (`execChar` yields the value under `'character'`,
`none` for GraphQL null); a missing character raises
`APIError(f"Character {id} not found", 404)` INSIDE the outer try; a truthy
location id triggers the secondary query whose `APIError` alone is caught
by the inner handler.  The outer `except Exception` re-raises anything
whose text contains "not found" (case-insensitively) as the 404 APIError
and everything else as a generic `APIError` without status. -/
def graphql_v2_fetch_character_with_location (character_id : Int)
    (execChar : Except ApiErr (Option GqlRawCharacter))
    (execLoc : Int → Except ApiErr (Option GqlRawLocation))
    : Except ApiErr (Character × Option Location) :=
  let body : Except GqlInnerErr (Character × Option Location) :=
    match execChar with
    | .error e => .error (.api e)
    | .ok none =>
      .error (.api ⟨"Character " ++ toString character_id ++ " not found",
        some 404⟩)
    | .ok (some raw) =>
      match _parse_character raw with
      | .error pe => .error (.parse pe)
      | .ok ch =>
        if pyTruthyIntOpt ch.get_location_id then
          match execLoc (ch.get_location_id.getD 0) with
          | .error _ => .ok (ch, none)
          | .ok none => .ok (ch, none)
          | .ok (some rawL) =>
            match _parse_location rawL with
            | .error pe => .error (.parse pe)
            | .ok l => .ok (ch, some l)
        else .ok (ch, none)
  match body with
  | .ok r => .ok r
  | .error ie =>
    if pyContains "not found".toList (pyLower (gqlInnerMsg ie).toList) then
      .error ⟨"Character " ++ toString character_id ++ " not found", some 404⟩
    else
      .error ⟨"Failed to fetch character " ++ toString character_id ++ ": "
        ++ gqlInnerMsg ie, none⟩

/-- Substring containment is preserved by prepending. -/
theorem pyContains_append_right {sep ds : List Char}
    (h : pyContains sep ds = true)
    : ∀ x : List Char, pyContains sep (x ++ ds) = true
  | [] => h
  | c :: cs => by
    have ih := pyContains_append_right h cs
    show pyContains sep (c :: (cs ++ ds)) = true
    by_cases hp : sep.isPrefixOf (c :: (cs ++ ds))
    · simp [pyContains, dropThroughFirst?, hp]
    · simp only [pyContains, dropThroughFirst?, hp, if_false, if_neg hp]
      exact ih

/-- The lowercased rendering of `f"Character {id} not found"` contains
"not found", whatever the id. -/
theorem not_found_in_msg (i : Int)
    : pyContains "not found".toList
        (pyLower ("Character " ++ toString i ++ " not found").toList)
      = true := by
  have h1 : ("Character " ++ toString i ++ " not found").toList
      = ("Character " ++ toString i).toList ++ " not found".toList := by
    simp [String.toList]
  rw [h1]
  unfold pyLower
  rw [List.map_append]
  have h2 : " not found".toList.map Char.toLower = " not found".toList := by
    decide
  rw [h2]
  exact pyContains_append_right (by decide) _

/-- C7: in all three implementations, fetch_character_with_location
converts only the SECONDARY location lookup's failure into
`location = None` (clauses 2, 4, 7), while a primary character-absent
failure surfaces as a distinct error carrying status 404 — the legacy REST
client propagates `handle_api_error`'s 404 APIError untouched (clause 1),
the facade REST client re-labels a 404 as `Character {id} not found` with
status 404 (clause 3), and the GraphQL client turns both a null character
payload (clause 5) and a transport error whose text says "not found"
(clause 6) into that same 404 APIError. -/
theorem C7_character_with_location :
    (∀ (fetchLoc : Int → Except ApiErr Location) (e : ApiErr),
      e.status_code = some 404 →
      rest_fetch_character_with_location (.error e) fetchLoc = .error e)
    ∧ (∀ (ch : Character) (fetchLoc : Int → Except ApiErr Location)
        (lid : Int) (e : ApiErr),
      ch.get_location_id = some lid → lid ≠ 0 → fetchLoc lid = .error e →
      rest_fetch_character_with_location (.ok ch) fetchLoc = .ok (ch, none))
    ∧ (∀ (character_id : Int) (fetchLoc : Int → Except ApiErr RawLocation)
        (e : ApiErr),
      e.status_code = some 404 →
      rest_v2_fetch_character_with_location character_id (.error e) fetchLoc
        = .error ⟨"Character " ++ toString character_id ++ " not found",
            some 404⟩)
    ∧ (∀ (character_id : Int) (raw : RawCharacter)
        (fetchLoc : Int → Except ApiErr RawLocation) (lid : Int) (e : ApiErr),
      (Character.from_dict raw).get_location_id = some lid → lid ≠ 0 →
      fetchLoc lid = .error e →
      rest_v2_fetch_character_with_location character_id (.ok raw) fetchLoc
        = .ok (Character.from_dict raw, none))
    ∧ (∀ (character_id : Int)
        (execLoc : Int → Except ApiErr (Option GqlRawLocation)),
      graphql_v2_fetch_character_with_location character_id (.ok none) execLoc
        = .error ⟨"Character " ++ toString character_id ++ " not found",
            some 404⟩)
    ∧ (∀ (character_id : Int)
        (execLoc : Int → Except ApiErr (Option GqlRawLocation)) (e : ApiErr),
      pyContains "not found".toList (pyLower e.msg.toList) = true →
      graphql_v2_fetch_character_with_location character_id (.error e) execLoc
        = .error ⟨"Character " ++ toString character_id ++ " not found",
            some 404⟩)
    ∧ (∀ (character_id : Int) (raw : GqlRawCharacter) (ch : Character)
        (execLoc : Int → Except ApiErr (Option GqlRawLocation))
        (lid : Int) (e : ApiErr),
      _parse_character raw = .ok ch → ch.get_location_id = some lid →
      lid ≠ 0 → execLoc lid = .error e →
      graphql_v2_fetch_character_with_location character_id (.ok (some raw))
        execLoc = .ok (ch, none)) := by
  refine ⟨?_, ?_, ?_, ?_, ?_, ?_, ?_⟩
  · intro fetchLoc e h
    rfl
  · intro ch fetchLoc lid e hloc hlid hfl
    simp [rest_fetch_character_with_location, hloc, pyTruthyIntOpt, hlid, hfl]
  · intro character_id fetchLoc e h
    simp [rest_v2_fetch_character_with_location, h]
  · intro character_id raw fetchLoc lid e hloc hlid hfl
    simp [rest_v2_fetch_character_with_location, hloc, pyTruthyIntOpt, hlid,
      hfl]
  · intro character_id execLoc
    have h := not_found_in_msg character_id
    simp at h
    simp [graphql_v2_fetch_character_with_location, gqlInnerMsg, h]
  · intro character_id execLoc e h
    simp at h
    simp [graphql_v2_fetch_character_with_location, gqlInnerMsg, h]
  · intro character_id raw ch execLoc lid e hparse hloc hlid hel
    simp [graphql_v2_fetch_character_with_location, hparse, hloc,
      pyTruthyIntOpt, hlid, hel]

/-- C7 witness: the seven clauses at concrete lookups — a 404 primary
failure and a failing secondary lookup for each transport, with a concrete
character whose stored location URL resolves to id 3. -/
theorem C7_character_with_location_witness :
    rest_fetch_character_with_location
        (.error ⟨"Resource not found", some 404⟩)
        (fun _ => .error ⟨"Resource not found", some 404⟩)
      = .error ⟨"Resource not found", some 404⟩
    ∧ rest_fetch_character_with_location
        (.ok ⟨1, "Rick", "Alive", "Human", "", "", ⟨"", ""⟩,
          ⟨some "Citadel", some "https://rickandmortyapi.com/api/location/3"⟩,
          "", [], "", ""⟩)
        (fun _ => .error ⟨"Resource not found", some 404⟩)
      = .ok (⟨1, "Rick", "Alive", "Human", "", "", ⟨"", ""⟩,
          ⟨some "Citadel", some "https://rickandmortyapi.com/api/location/3"⟩,
          "", [], "", ""⟩, none)
    ∧ rest_v2_fetch_character_with_location 7
        (.error ⟨"Resource not found", some 404⟩)
        (fun _ => .error ⟨"Resource not found", some 404⟩)
      = .error ⟨"Character 7 not found", some 404⟩
    ∧ graphql_v2_fetch_character_with_location 7 (.ok none)
        (fun _ => .error ⟨"boom", none⟩)
      = .error ⟨"Character 7 not found", some 404⟩
    ∧ graphql_v2_fetch_character_with_location 7
        (.error ⟨"GraphQL query failed: 404: Not Found", none⟩)
        (fun _ => .error ⟨"boom", none⟩)
      = .error ⟨"Character 7 not found", some 404⟩
    ∧ graphql_v2_fetch_character_with_location 1
        (.ok (some { id? := some "1", name? := some "Rick",
                     status? := some "Alive", species? := some "Human",
                     location? := some ⟨some "3", some "Citadel of Ricks"⟩ }))
        (fun _ => .error ⟨"boom", none⟩)
      = .ok (⟨1, "Rick", "Alive", "Human", "", "", ⟨"", ""⟩,
          ⟨some "Citadel of Ricks",
            some "https://rickandmortyapi.com/api/location/3"⟩,
          "", [], "", ""⟩, none) := by
  refine ⟨C7_character_with_location.1 _ _ rfl,
    C7_character_with_location.2.1 _ _ 3 ⟨"Resource not found", some 404⟩
      (by decide) (by decide) rfl,
    ?_,
    C7_character_with_location.2.2.2.2.1 7 _,
    C7_character_with_location.2.2.2.2.2.1 7 _ _ (by decide),
    C7_character_with_location.2.2.2.2.2.2 1 _ _ _ 3
      ⟨"boom", none⟩ rfl (by decide) (by decide) rfl⟩
  have h := C7_character_with_location.2.2.1 7
    (fun _ => .error ⟨"Resource not found", some 404⟩)
    ⟨"Resource not found", some 404⟩ rfl
  simpa using h

/-- Rebuilding back-reference URLs succeeds whenever every nested
reference carries its id. -/
theorem buildUrls_ok (f : String → String)
    : ∀ l : List GqlIdRef, l.all (fun ep => ep.id?.isSome) = true →
      ∃ us, buildUrls f l = Except.ok us
  | [], _ => ⟨[], rfl⟩
  | ep :: l, h => by
    simp [List.all_cons] at h
    obtain ⟨hid, hrest⟩ := h
    obtain ⟨i, hi⟩ := Option.isSome_iff_exists.mp hid
    obtain ⟨us, hus⟩ := buildUrls_ok f l (by simpa using hrest)
    exact ⟨f i :: us, by simp [buildUrls, hi, pyGet, hus, Except.map, bind,
      Except.bind, pure, Except.pure]⟩

/-- C9: the REST record parsers substitute an empty string / list / dict
for every missing optional field and never raise — they are total
functions of the raw dict (clauses 1-3) — and a location sub-object that
is present but lacks an identifiable URL keeps its name while
get_location_id stays unresolved (clause 2); the GraphQL character parser
returns a parsed record (rather than raising) whenever the fields its
subscripts demand (id, name, status, species, episode-entry ids) are
present, substituting defaults for the optional ones, and a location
reference without a truthy id yields a location dict with the name kept,
no URL synthesized, and an unresolved ID (clause 4). -/
theorem C9_parser_tolerance :
    (∀ d : RawCharacter,
      (d.name? = none → (Character.from_dict d).name = "")
      ∧ (d.type? = none → (Character.from_dict d).type = "")
      ∧ (d.gender? = none → (Character.from_dict d).gender = "")
      ∧ (d.episode? = none → (Character.from_dict d).episode = [])
      ∧ (d.origin? = none → (Character.from_dict d).origin = ⟨"", ""⟩)
      ∧ (d.location? = none → (Character.from_dict d).location = ⟨none, none⟩))
    ∧ (∀ (d : RawCharacter) (nm : String), d.location? = some ⟨some nm, none⟩ →
      (Character.from_dict d).location = ⟨some nm, none⟩
      ∧ (Character.from_dict d).get_location_id = none)
    ∧ (∀ d : RawLocation,
      (d.type? = none → (Location.from_dict d).type = "")
      ∧ (d.dimension? = none → (Location.from_dict d).dimension = "")
      ∧ (d.residents? = none → (Location.from_dict d).residents = []))
    ∧ (∀ (g : GqlRawCharacter) (idS : String) (n : Int) (nm st sp : String),
      g.id? = some idS → pyInt? idS.toList = some n → g.name? = some nm →
      g.status? = some st → g.species? = some sp →
      (g.episode?.getD []).all (fun ep => ep.id?.isSome) = true →
      ∃ ch : Character, _parse_character g = .ok ch
        ∧ ch.name = nm
        ∧ (g.type? = none → ch.type = "")
        ∧ (g.gender? = none → ch.gender = "")
        ∧ (g.episode? = none → ch.episode = [])
        ∧ (∀ lnm : String, g.location? = some ⟨none, some lnm⟩ →
            ch.location = ⟨some lnm, none⟩ ∧ ch.get_location_id = none)) := by
  refine ⟨?_, ?_, ?_, ?_⟩
  · intro d
    refine ⟨?_, ?_, ?_, ?_, ?_, ?_⟩ <;>
      (intro h; simp [Character.from_dict, h])
  · intro d nm hloc
    constructor
    · simp [Character.from_dict, hloc]
    · apply get_location_id_of_no_url
      simp [Character.from_dict, hloc]
  · intro d
    refine ⟨?_, ?_, ?_⟩ <;> (intro h; simp [Location.from_dict, h])
  · intro g idS n nm st sp hid hint hname hstatus hspecies heps
    obtain ⟨us, hus⟩ :=
      buildUrls_ok (fun i => restBaseUrl ++ "/episode/" ++ i) _ heps
    have hparse : _parse_character g = .ok (Character.from_dict
        { id? := some n, name? := some nm, status? := some st,
          species? := some sp, type? := some (g.type?.getD ""),
          gender? := some (g.gender?.getD ""),
          origin? := some (g.origin?.getD ⟨none, none⟩),
          location? := some (if ((g.location?.getD ⟨none, none⟩).id?.isSome
                || (g.location?.getD ⟨none, none⟩).name?.isSome)
                && (g.location?.getD ⟨none, none⟩).id?.getD "" ≠ "" then
              ⟨(g.location?.getD ⟨none, none⟩).name?,
                some (restBaseUrl ++ "/location/"
                  ++ (g.location?.getD ⟨none, none⟩).id?.getD "")⟩
            else ⟨(g.location?.getD ⟨none, none⟩).name?, none⟩),
          image? := some (g.image?.getD ""), episode? := some us,
          created? := some (g.created?.getD "") }) := by
      have hint2 : pyInt? idS.data = some n := hint
      rw [_parse_character]
      simp [hus, hid, hint, hint2, hname, hstatus, hspecies, pyGet, bind,
        Except.bind, pure, Except.pure, Character.from_dict]
    refine ⟨_, hparse, ?_, ?_, ?_, ?_, ?_⟩
    · simp [Character.from_dict]
    · intro h
      simp [Character.from_dict, h]
    · intro h
      simp [Character.from_dict, h]
    · intro h
      rw [h] at hus
      simp [buildUrls] at hus
      simp [Character.from_dict, ← hus]
    · intro lnm hloc
      constructor
      · simp [Character.from_dict, hloc]
      · apply get_location_id_of_no_url
        simp [Character.from_dict, hloc]

/-- C9 witness: clause 2 at a concrete record whose location dict has a
name but no URL, and clause 4 at a concrete GraphQL record missing its
optional type/gender/episode fields and carrying an id-less location. -/
theorem C9_parser_tolerance_witness :
    ((Character.from_dict { location? := some ⟨some "Earth", none⟩ }).location
        = ⟨some "Earth", none⟩
      ∧ (Character.from_dict
          { location? := some ⟨some "Earth", none⟩ }).get_location_id = none)
    ∧ ∃ ch : Character,
        _parse_character { id? := some "5", name? := some "Morty",
                           status? := some "Alive", species? := some "Human",
                           location? := some ⟨none, some "Earth"⟩ }
          = .ok ch
        ∧ ch.name = "Morty"
        ∧ ((none : Option String) = none → ch.type = "")
        ∧ ((none : Option String) = none → ch.gender = "")
        ∧ ((none : Option (List GqlIdRef)) = none → ch.episode = [])
        ∧ (∀ lnm : String,
            (some ⟨none, some "Earth"⟩ : Option GqlLocRef) = some ⟨none, some lnm⟩ →
            ch.location = ⟨some lnm, none⟩ ∧ ch.get_location_id = none) :=
  ⟨C9_parser_tolerance.2.1 { location? := some ⟨some "Earth", none⟩ } "Earth" rfl,
   C9_parser_tolerance.2.2.2 { id? := some "5", name? := some "Morty",
                               status? := some "Alive",
                               species? := some "Human",
                               location? := some ⟨none, some "Earth"⟩ }
     "5" 5 "Morty" "Alive" "Human" rfl (by decide) rfl rfl rfl (by decide)⟩

/- ### src/src/shared/data_processor.py : DataProcessor.get_statistics -/

/-- One step of collections.Counter: bump an existing key or append a new
one (dicts preserve insertion order). -/
def tallyAdd (acc : List (String × Nat)) (k : String) : List (String × Nat) :=
  if acc.any (fun kv => kv.1 = k) then
    acc.map (fun kv => if kv.1 = k then (kv.1, kv.2 + 1) else kv)
  else acc ++ [(k, 1)]

/-- collections.Counter over a list of keys. -/
def counterOf (keys : List String) : List (String × Nat) :=
  keys.foldl tallyAdd []

/-- `dict(Counter(keys).most_common())`: entries by count descending,
insertion order preserved among equal counts (CPython ≥ 3.7).  Python's
sort is stable, and a stable insertion sort yields the same list as any
other stable sort for this total preorder. -/
def most_common (keys : List String) : List (String × Nat) :=
  (counterOf keys).insertionSort (fun a b => b.2 ≤ a.2)

/-- An entry of `most_populated_locations`. -/
structure PopulatedLoc where
  name : String
  type : String
  dimension : String
  resident_count : Nat
deriving Repr, DecidableEq

/-- DataProcessor._get_most_populated_locations: project then stable-sort
by resident count descending (`list.sort(..., reverse=True)`). -/
def _get_most_populated_locations (locations : List Location)
    : List PopulatedLoc :=
  (locations.map (fun l =>
    (⟨l.name, l.type, l.dimension, l.residents.length⟩ : PopulatedLoc)))
    |>.insertionSort (fun a b => b.resident_count ≤ a.resident_count)

/-- One entry of the `location_id_issues` debugging list. -/
structure LocationIdIssue where
  character_id : Int
  character_name : String
  location_id : Int
  location_url : String
deriving Repr, DecidableEq

/-- The `character_location_mapping` sub-dictionary. -/
structure MappingStats where
  total_characters : Nat
  characters_with_location : Nat
  characters_with_valid_location_mapping : Nat
  mapping_success_rate : Rat
  location_id_issues : List LocationIdIssue
deriving Repr, DecidableEq

/-- DataProcessor._analyze_character_location_mapping: walk the characters,
counting those with a truthy location name, those whose resolved location
id is truthy and present among the fetched locations' ids, and collecting
issue records (first 5 reported) for truthy ids with no match.  The
success rate divides by len(characters), guarded by
`if characters else 0`. -/
def _analyze_character_location_mapping (characters : List Character)
    (locations : List Location) : MappingStats :=
  let counts := characters.foldl (fun acc ch =>
    if ch.location.truthy && ch.location.name?.getD "" ≠ "" then
      let lid? := ch.get_location_id
      if pyTruthyIntOpt lid?
          && locations.any (fun l => l.id = lid?.getD 0) then
        (acc.1 + 1, acc.2.1 + 1, acc.2.2)
      else if pyTruthyIntOpt lid? then
        (acc.1 + 1, acc.2.1, acc.2.2
          ++ [⟨ch.id, ch.name, lid?.getD 0, ch.location.url?.getD ""⟩])
      else (acc.1 + 1, acc.2.1, acc.2.2)
    else acc) ((0, 0, []) : Nat × Nat × List LocationIdIssue)
  { total_characters := characters.length
    characters_with_location := counts.1
    characters_with_valid_location_mapping := counts.2.1
    mapping_success_rate :=
      if characters ≠ [] then
        (counts.2.1 : Rat) / (characters.length : Rat) * 100
      else 0
    location_id_issues := counts.2.2.take 5 }

/-- The `character_data_quality` issue counts. -/
structure CharacterIssues where
  missing_origin : Nat
  missing_location : Nat
  missing_species : Nat
  unknown_status : Nat
deriving Repr, DecidableEq

/-- The `location_data_quality` issue counts. -/
structure LocationIssues where
  missing_type : Nat
  missing_dimension : Nat
  no_residents : Nat
  empty_names : Nat
deriving Repr, DecidableEq

/-- The `data_quality` sub-dictionary. -/
structure DataQuality where
  character_data_quality : CharacterIssues
  location_data_quality : LocationIssues
  overall_completeness_score : Rat
deriving Repr, DecidableEq

/-- Python `round(x)` to an integer: round-half-to-even (the float
representation artifacts of CPython's `round` on floats are not modelled —
arithmetic here is exact rational). -/
def pyRoundHalfEven (x : Rat) : Int :=
  let f := ⌊x⌋
  let r := x - f
  if r < 1 / 2 then f
  else if 1 / 2 < r then f + 1
  else if f % 2 = 0 then f else f + 1

/-- Python `round(x, 2)`. -/
def pyRound2 (x : Rat) : Rat :=
  (pyRoundHalfEven (x * 100) : Rat) / 100

/-- DataProcessor._calculate_completeness_score: 0.0 on an empty dataset;
otherwise per-kind completeness out of 4 inspected fields, weighted by
record counts, as a 0-100 score rounded to 2 decimals. -/
def _calculate_completeness_score (char_issues : CharacterIssues)
    (loc_issues : LocationIssues) (total_chars total_locs : Nat) : Rat :=
  if total_chars = 0 ∧ total_locs = 0 then 0
  else
    let total_char_issues : Rat := char_issues.missing_origin
      + char_issues.missing_location + char_issues.missing_species
      + char_issues.unknown_status
    let total_loc_issues : Rat := loc_issues.missing_type
      + loc_issues.missing_dimension + loc_issues.no_residents
      + loc_issues.empty_names
    let char_completeness : Rat :=
      if 0 < total_chars then
        ((total_chars : Rat) * 4 - total_char_issues) / ((total_chars : Rat) * 4)
      else 1
    let loc_completeness : Rat :=
      if 0 < total_locs then
        ((total_locs : Rat) * 4 - total_loc_issues) / ((total_locs : Rat) * 4)
      else 1
    let overall_score := (char_completeness * total_chars
      + loc_completeness * total_locs) / ((total_chars : Rat) + total_locs)
    pyRound2 (overall_score * 100)

/-- DataProcessor._assess_data_quality. -/
def _assess_data_quality (characters : List Character)
    (locations : List Location) : DataQuality :=
  let character_issues : CharacterIssues :=
    { missing_origin := (characters.filter (fun c => c.origin.name = "")).length
      missing_location :=
        (characters.filter (fun c => c.location.name?.getD "" = "")).length
      missing_species := (characters.filter (fun c => c.species = "")).length
      unknown_status :=
        (characters.filter (fun c => c.status = "unknown")).length }
  let location_issues : LocationIssues :=
    { missing_type := (locations.filter (fun l => l.type = "")).length
      missing_dimension := (locations.filter (fun l => l.dimension = "")).length
      no_residents := (locations.filter (fun l => l.residents = [])).length
      empty_names := (locations.filter (fun l => l.name = "")).length }
  { character_data_quality := character_issues
    location_data_quality := location_issues
    overall_completeness_score := _calculate_completeness_score
      character_issues location_issues characters.length locations.length }

/-- The dictionary DataProcessor.get_statistics returns. -/
structure Statistics where
  total_characters : Nat
  total_locations : Nat
  character_status : List (String × Nat)
  character_species : List (String × Nat)
  character_gender : List (String × Nat)
  location_types : List (String × Nat)
  location_dimensions : List (String × Nat)
  most_populated_locations : List PopulatedLoc
  character_location_mapping : MappingStats
  data_quality : DataQuality
deriving Repr, DecidableEq

/-- DataProcessor.get_statistics. -/
def get_statistics (characters : List Character) (locations : List Location)
    : Statistics :=
  { total_characters := characters.length
    total_locations := locations.length
    character_status := most_common (characters.map (·.status))
    character_species := most_common (characters.map (·.species))
    character_gender := most_common (characters.map (·.gender))
    location_types := most_common (locations.map (·.type))
    location_dimensions := most_common (locations.map (·.dimension))
    most_populated_locations := _get_most_populated_locations locations
    character_location_mapping :=
      _analyze_character_location_mapping characters locations
    data_quality := _assess_data_quality characters locations }

/-- C10: the Statistics Engine on the empty dataset returns zeroed totals,
a zero mapping-success rate, a 0.0 completeness score, empty distributions
for every breakdown, an empty most-populated list and empty issue lists —
and, being a total function, never raises. -/
theorem C10_statistics_empty :
    get_statistics [] []
      = { total_characters := 0, total_locations := 0, character_status := [],
          character_species := [], character_gender := [],
          location_types := [], location_dimensions := [],
          most_populated_locations := [],
          character_location_mapping := ⟨0, 0, 0, 0, []⟩,
          data_quality := ⟨⟨0, 0, 0, 0⟩, ⟨0, 0, 0, 0⟩, 0⟩ } := by
  decide
